import Mathlib

/-!
Shallow embedding of the openbook-cli market-inspection pipeline
(src/src/index.ts, with the duplicated variant in src/unnamed/part_001).

Modelling conventions:
* JavaScript numbers (prices, sizes) are embedded as rationals (Rat).
* JavaScript objects used as string-keyed maps are association lists
  (List (String x value)); property assignment is setEntry, property
  read is lookupKey, and JS truthiness of a read is jsTruthyStr /
  jsTruthyNum (undefined, the empty string and 0 are falsy).
* Exceptions are Except values; a try/catch is a match on the body.
* External capabilities (the Solana RPC connection and the serum SDK
  decoding of slab accounts) are environment records of functions:
  OrderBookEnv holds the getL2 views of the loaded bids/asks accounts,
  TokenEnv holds pubkey validation and the parsed-mint fetch, and
  FetchResult is the outcome of connection.getAccountInfo.
-/

/-- Program identifier constant for the OpenBook program (index.ts line 5). -/
def OPENBOOK_PROGRAM_ID : String := "srmqPvymJeFKQ4zGQed1GFppgkRHL9kaELCbyksJtPX"

/-- Program identifier constant for the Serum program (index.ts line 6). -/
def SERUM_PROGRAM_ID : String := "9xQeWvG816bUx9EPjHmaT23yvVM2ZWbrrpZb9PusVFin"

/-- Read of a string-keyed JS object property: first binding wins. -/
def lookupKey {β : Type} : List (String × β) → String → Option β
  | [], _ => none
  | (k', v) :: t, k => if k' = k then some v else lookupKey t k

/-- JS object property assignment obj[k] = v: overwrite in place if the
key exists, otherwise append the new binding. -/
def setEntry {β : Type} (k : String) (v : β) (l : List (String × β)) : List (String × β) :=
  if (lookupKey l k).isSome then
    l.map (fun p => if p.1 = k then (k, v) else p)
  else
    l ++ [(k, v)]

/-- JS truthiness of a string-valued property read: undefined (none) and
the empty string are falsy. -/
def jsTruthyStr : Option String → Bool
  | none => false
  | some s => !(s == "")

/-- JS truthiness of a number-valued expression of type number-or-null:
null (none) and 0 are falsy. -/
def jsTruthyNum : Option Rat → Bool
  | none => false
  | some x => decide (x ≠ 0)

/-- Side tag of an order-book level (index.ts lines 55-59). -/
inductive Side
  | bid
  | ask
deriving DecidableEq

/-- One price level of the order book (interface OrderBookLevel,
index.ts lines 55-59). -/
structure OrderBookLevel where
  price : Rat
  size : Rat
  side : Side
deriving DecidableEq

/-- The pair of level sequences returned by getRealOrderBook. -/
structure OrderBook where
  bids : List OrderBookLevel
  asks : List OrderBookLevel
deriving DecidableEq

/-- External decoding capability for one successfully loaded market:
bidsL2 n models bids.getL2(n) and asksL2 n models asks.getL2(n) of the
serum SDK, i.e. the decoded (price, size) pairs of each order-queue
slab account truncated to n levels by the SDK. -/
structure OrderBookEnv where
  bidsL2 : Nat → List (Rat × Rat)
  asksL2 : Nat → List (Rat × Rat)

/-- Embedding of getRealOrderBook (index.ts lines 248-297), success path
after the market has been loaded. The source requests getL2(20) on both
sides - the literal 20, not the depth parameter - and maps each pair to
a tagged level in the order the SDK returned them. The depth parameter
is declared (default 20) but never read, exactly as in the source. -/
def getRealOrderBook (env : OrderBookEnv) (depth : Nat) : OrderBook :=
  let bidsArray := env.bidsL2 20
  let asksArray := env.asksL2 20
  let bidOrders := bidsArray.map (fun bid => OrderBookLevel.mk bid.1 bid.2 Side.bid)
  let askOrders := asksArray.map (fun ask => OrderBookLevel.mk ask.1 ask.2 Side.ask)
  { bids := bidOrders, asks := askOrders }

/-- A list of rationals is non-increasing (each element at least the
next); used to state the descending-bids ordering contract. -/
def nonIncreasing : List Rat → Bool
  | [] => true
  | [_] => true
  | a :: b :: t => decide (b ≤ a) && nonIncreasing (b :: t)

/-- A list of rationals is non-decreasing; used to state the
ascending-asks ordering contract. -/
def nonDecreasing : List Rat → Bool
  | [] => true
  | [_] => true
  | a :: b :: t => decide (a ≤ b) && nonDecreasing (b :: t)

/-- Result record of getMarketStats (index.ts lines 316-345). -/
structure MarketStats where
  totalBids : Nat
  totalAsks : Nat
  bestBid : Option Rat
  bestAsk : Option Rat
  spread : Option Rat
  spreadPercentage : Option Rat
deriving DecidableEq

/-- The expression bids.length > 0 ? bids[0].price : null of
getMarketStats (index.ts line 327): the head price of a level list, or
null for an empty side. -/
def headPrice : List OrderBookLevel → Option Rat
  | [] => none
  | x :: _ => some x.price

/-- The expression bestBid && bestAsk ? bestAsk - bestBid : null
(index.ts line 330): both operands must be truthy (non-null and
non-zero) for the subtraction to be produced. -/
def spreadOf (bestBid bestAsk : Option Rat) : Option Rat :=
  if jsTruthyNum bestBid && jsTruthyNum bestAsk then
    some (bestAsk.getD 0 - bestBid.getD 0)
  else none

/-- The expression spread && bestBid ? (spread / bestBid) * 100 : null
(index.ts line 331): a null or zero spread, or a null or zero best bid,
yields null. -/
def spreadPercentageOf (spread bestBid : Option Rat) : Option Rat :=
  if jsTruthyNum spread && jsTruthyNum bestBid then
    some (spread.getD 0 / bestBid.getD 0 * 100)
  else none

/-- Embedding of getMarketStats (index.ts lines 316-345), success path.
It reads the order book (requesting depth 1, which getRealOrderBook
ignores), takes the head price of each side, and computes spread and
spreadPercentage through the JS truthiness guards above. -/
def getMarketStats (env : OrderBookEnv) : MarketStats :=
  let ob := getRealOrderBook env 1
  { totalBids := ob.bids.length
    totalAsks := ob.asks.length
    bestBid := headPrice ob.bids
    bestAsk := headPrice ob.asks
    spread := spreadOf (headPrice ob.bids) (headPrice ob.asks)
    spreadPercentage :=
      spreadPercentageOf (spreadOf (headPrice ob.bids) (headPrice ob.asks))
        (headPrice ob.bids) }

/-- Token metadata record (interface TokenMetadata, index.ts lines 75-79). -/
structure TokenMetadata where
  symbol : String
  name : String
  decimals : Nat
deriving DecidableEq

/-- Outcome of connection.getParsedAccountInfo on a mint address, as
observed by getTokenMetadata: the call can throw (network error), the
account can be absent (tokenInfo.value null), the data can lack the
parsed mint fields (property access throws), or it yields decimals. -/
inductive MintFetchResult
  | netError
  | notFound
  | notMint
  | mint (decimals : Nat)
deriving DecidableEq

/-- External capabilities consumed by getTokenMetadata: whether the
PublicKey constructor accepts a given string (base-58 validity), and
the outcome of the parsed-mint fetch for a given address. -/
structure TokenEnv where
  validKey : String → Bool
  fetchMint : String → MintFetchResult

/-- The KNOWN_TOKEN_SYMBOLS mapping (index.ts line 83). -/
abbrev SymbolMap := List (String × String)

/-- Error kinds thrown inside the try block of getTokenMetadata. -/
inductive TokenErr
  | invalidKeyFormat
  | tokenAccountNotFound
  | decodeFailure
  | networkFailure
deriving DecidableEq

/-- The mint-fetch portion of getTokenMetadata's try block (index.ts
lines 99-114): fetch the parsed account, throw if the call fails, the
value is null, or the parsed decimals are missing; otherwise synthesize
the symbol as the first 8 characters of the mint address. -/
def fetchMintBranch (env : TokenEnv) (mintAddress : String) : Except TokenErr TokenMetadata :=
  match env.fetchMint mintAddress with
  | .netError => .error .networkFailure
  | .notFound => .error .tokenAccountNotFound
  | .notMint => .error .decodeFailure
  | .mint d => .ok { symbol := mintAddress.take 8, name := "Unknown Token", decimals := d }

/-- The try block of getTokenMetadata (index.ts lines 86-115): validate
the address as a PublicKey (throwing on malformed input), then return a
cached symbol when the KNOWN_TOKEN_SYMBOLS read is truthy (present and
non-empty), else fall through to the mint fetch. -/
def getTokenMetadataBody (env : TokenEnv) (symbols : SymbolMap) (mintAddress : String) :
    Except TokenErr TokenMetadata :=
  if env.validKey mintAddress then
    match lookupKey symbols mintAddress with
    | some s =>
      if s = "" then fetchMintBranch env mintAddress
      else .ok { symbol := s, name := s, decimals := 6 }
    | none => fetchMintBranch env mintAddress
  else .error .invalidKeyFormat

/-- Embedding of getTokenMetadata (index.ts lines 85-124): the try body
with its catch-all handler, which returns the universal fallback
(first 8 characters of the address, name "Unknown Token", decimals 6)
for every thrown error. Total by construction, as the source's catch
swallows every exception. -/
def getTokenMetadata (env : TokenEnv) (symbols : SymbolMap) (mintAddress : String) :
    TokenMetadata :=
  match getTokenMetadataBody env symbols mintAddress with
  | .ok tm => tm
  | .error _ => { symbol := mintAddress.take 8, name := "Unknown Token", decimals := 6 }

/-- Instrumentation: the getParsedAccountInfo network call inside
getTokenMetadata executes exactly when the address passed PublicKey
validation and the cached-symbol read was falsy (absent or empty). -/
def mintLookupIssued (env : TokenEnv) (symbols : SymbolMap) (mintAddress : String) : Bool :=
  env.validKey mintAddress && !(jsTruthyStr (lookupKey symbols mintAddress))

/-- Owner field of a fetched account (the only field the detection and
validity logic reads). -/
structure AccountInfo where
  owner : String
deriving DecidableEq

/-- Outcome of the createPublicKey + connection.getAccountInfo pair in
main's auto-detection block: the constructor can throw on a malformed
address, the RPC call can throw, or it returns the account or null. -/
inductive FetchResult
  | ok (account : Option AccountInfo)
  | invalidKey
  | netError
deriving DecidableEq

/-- Outcome of main's program auto-detection block (index.ts lines
760-798): either proceed with a selected identity (useSerum flag), or
abort the invocation with one of three distinct early returns. -/
inductive DetectOutcome
  | proceed (useSerum : Bool)
  | abortInvalidMarket
  | abortNotFound
  | abortInvalidKeyFormat
deriving DecidableEq

/-- Embedding of the auto-detection block of main (index.ts lines
760-798). With a fetched account, the owner string is compared for
exact equality against the two program identifiers; neither match
aborts as an invalid market. A null account aborts as not found. A
malformed address aborts as invalid key format. A network error keeps
the caller-supplied flag value as the default and proceeds. -/
def detectProgram (useSerumFlag : Bool) (r : FetchResult) : DetectOutcome :=
  match r with
  | .ok (some account) =>
    if account.owner = SERUM_PROGRAM_ID then .proceed true
    else if account.owner = OPENBOOK_PROGRAM_ID then .proceed false
    else .abortInvalidMarket
  | .ok none => .abortNotFound
  | .invalidKey => .abortInvalidKeyFormat
  | .netError => .proceed useSerumFlag

/-- The useSerumFlag computation of main (index.ts line 753). -/
def useSerumFlagOf (args : List String) : Bool :=
  args.contains "--serum" || args.contains "-s"

/-- The guard of main's auto-detection block (index.ts line 760):
args[0] is truthy and neither list flag is present. -/
def autoDetectApplies (args : List String) : Bool :=
  (match args.head? with
   | some s => !(s == "")
   | none => false)
  && !(args.contains "--list") && !(args.contains "-l")

/-- Identity selection of main for one invocation (index.ts lines
752-798): the flag initializes useSerum, and when the detection guard
holds the detection block runs on the fetch outcome and its result
replaces or confirms the flag. -/
def selectProgramOutcome (args : List String) (r : FetchResult) : DetectOutcome :=
  if autoDetectApplies args then detectProgram (useSerumFlagOf args) r
  else .proceed (useSerumFlagOf args)

/-- Embedding of isValidMarket (index.ts lines 39-53): a boolean check
that collapses every failure (malformed key, network error, absent
account) and an owner mismatch against the single expected program
into false. -/
def isValidMarket (useSerum : Bool) (r : FetchResult) : Bool :=
  match r with
  | .ok (some account) =>
    account.owner = (if useSerum then SERUM_PROGRAM_ID else OPENBOOK_PROGRAM_ID)
  | .ok none => false
  | .invalidKey => false
  | .netError => false

/-- Record stored per market in KNOWN_MARKETS (the marketInfo object
built in addMarketToKnownMarkets, index.ts lines 478-488). -/
structure MarketRecord where
  name : String
  baseMint : String
  quoteMint : String
  minOrderSize : Rat
  priceTick : Rat
  eventQueueLength : Nat
  requestQueueLength : Nat
  bidsLength : Nat
  asksLength : Nat
deriving DecidableEq

/-- The KNOWN_MARKETS mapping (index.ts line 82). -/
abbrev MarketMap := List (String × MarketRecord)

/-- The in-memory Known-Market Store: the two global mappings. -/
structure Store where
  markets : MarketMap
  symbols : SymbolMap
deriving DecidableEq

/-- The two mint addresses read off a successfully decoded Market
object (market.baseMintAddress / market.quoteMintAddress). -/
structure LoadedMarket where
  baseMintAddress : String
  quoteMintAddress : String
deriving DecidableEq

/-- Failure kinds of loadOpenBookMarket (index.ts lines 230-245). -/
inductive LoadErr
  | ownershipMismatch
  | accountNotFound
  | otherLoadFailure
deriving DecidableEq

/-- The guarded symbol write of addMarketToKnownMarkets (index.ts lines
494-500): if (!KNOWN_TOKEN_SYMBOLS[mint]) then assign - the write
happens exactly when the current read is falsy (absent or the empty
string). -/
def addSymbolIfAbsent (mint sym : String) (symbols : SymbolMap) : SymbolMap :=
  if jsTruthyStr (lookupKey symbols mint) then symbols
  else setEntry mint sym symbols

/-- Embedding of addMarketToKnownMarkets (index.ts lines 466-517). The
market load outcome is an input; on failure the exception propagates
before any mutation. On success both token metadata lookups run against
the pre-mutation symbol mapping, the market record is stored under the
market address, and each mint's symbol is written through the truthiness
guard, the quote check seeing the base write. -/
def addMarketToKnownMarkets (env : TokenEnv) (marketAddress : String)
    (loadResult : Except LoadErr LoadedMarket) (st : Store) : Except LoadErr Store :=
  match loadResult with
  | .error e => .error e
  | .ok market =>
    let baseMetadata := getTokenMetadata env st.symbols market.baseMintAddress
    let quoteMetadata := getTokenMetadata env st.symbols market.quoteMintAddress
    let marketInfo : MarketRecord :=
      { name := baseMetadata.symbol ++ "/" ++ quoteMetadata.symbol
        baseMint := market.baseMintAddress
        quoteMint := market.quoteMintAddress
        minOrderSize := 1
        priceTick := 1 / 10000
        eventQueueLength := 2978
        requestQueueLength := 63
        bidsLength := 909
        asksLength := 909 }
    .ok { markets := setEntry marketAddress marketInfo st.markets
          symbols :=
            addSymbolIfAbsent market.quoteMintAddress quoteMetadata.symbol
              (addSymbolIfAbsent market.baseMintAddress baseMetadata.symbol st.symbols) }

/-- The add-market path of main (index.ts lines 812-835): run
addMarketToKnownMarkets in a try; only on success call
saveKnownMarketsToFile, on a caught error return with the store as it
was. Returns the resulting store and whether save was called. -/
def mainAddWorkflow (env : TokenEnv) (marketAddress : String)
    (loadResult : Except LoadErr LoadedMarket) (st : Store) : Store × Bool :=
  match addMarketToKnownMarkets env marketAddress loadResult st with
  | .ok st1 => (st1, true)
  | .error _ => (st, false)

/-- Content of the persisted markets file after the add-market path:
rewritten from the updated store only when save was called, otherwise
the previous bytes are untouched. The serialization itself
(JSON.stringify) is an external capability. -/
def fileAfterAdd (serialize : Store → String) (env : TokenEnv) (marketAddress : String)
    (loadResult : Except LoadErr LoadedMarket) (st : Store) (file : String) : String :=
  let result := mainAddWorkflow env marketAddress loadResult st
  if result.2 then serialize result.1 else file

/-- Condition of the persisted state as seen by
loadKnownMarketsFromFile: the file can be missing (existsSync false),
its content can fail to read or parse (a thrown exception), or it
parses to a record whose markets and symbols fields may each be
absent. -/
inductive FileState
  | missing
  | corrupt
  | parsed (markets : Option MarketMap) (symbols : Option SymbolMap)

/-- The try block of loadKnownMarketsFromFile (index.ts lines 544-568):
a missing file initializes both mappings to empty without throwing; a
corrupt file throws; a parsed file installs its fields, each defaulted
to empty when absent. -/
def loadKnownMarketsBody (f : FileState) : Except Unit Store :=
  match f with
  | .missing => .ok { markets := [], symbols := [] }
  | .corrupt => .error ()
  | .parsed m s => .ok { markets := m.getD [], symbols := s.getD [] }

/-- Embedding of loadKnownMarketsFromFile (index.ts lines 543-575): the
try body with its catch, which resets both mappings to empty on any
thrown error. Total by construction, as the source's catch swallows
every exception. -/
def loadKnownMarketsFromFile (f : FileState) : Store :=
  match loadKnownMarketsBody f with
  | .ok st => st
  | .error _ => { markets := [], symbols := [] }

/-- Helper: overwriting the binding of a different key in place does
not change a lookup. -/
theorem lookupKey_map_set {β : Type} (t : List (String × β)) (k k' : String) (v : β)
    (h : k' ≠ k) :
    lookupKey (t.map (fun p => if p.1 = k' then (k', v) else p)) k = lookupKey t k := by
  induction t with
  | nil => rfl
  | cons p t ih =>
    obtain ⟨a, b⟩ := p
    simp only [List.map_cons]
    by_cases hp : a = k'
    · have hrw : (if (a, b).1 = k' then (k', v) else (a, b)) = (k', v) := by simp [hp]
      rw [hrw]
      simp only [lookupKey]
      rw [if_neg h, if_neg (fun hak => h (hp ▸ hak))]
      exact ih
    · have hrw : (if (a, b).1 = k' then (k', v) else (a, b)) = (a, b) := by simp [hp]
      rw [hrw]
      simp only [lookupKey]
      split
      · rfl
      · exact ih

/-- Helper: appending a binding for a different key does not change a
lookup. -/
theorem lookupKey_append_single {β : Type} (t : List (String × β)) (k k' : String) (v : β)
    (h : k' ≠ k) : lookupKey (t ++ [(k', v)]) k = lookupKey t k := by
  induction t with
  | nil =>
    simp only [List.nil_append, lookupKey]
    rw [if_neg h]
  | cons p t ih =>
    obtain ⟨a, b⟩ := p
    simp only [List.cons_append, lookupKey]
    split
    · rfl
    · exact ih

/-- Helper: setEntry for a different key does not change a lookup. -/
theorem lookupKey_setEntry_ne {β : Type} (l : List (String × β)) (k k' : String) (v : β)
    (h : k' ≠ k) : lookupKey (setEntry k' v l) k = lookupKey l k := by
  unfold setEntry
  split
  · exact lookupKey_map_set l k k' v h
  · exact lookupKey_append_single l k k' v h

/-- Helper: a non-empty symbol entry survives addSymbolIfAbsent. -/
theorem lookupKey_addSymbolIfAbsent (mint sym k s : String) (symbols : SymbolMap)
    (hs : lookupKey symbols k = some s) (hne : s ≠ "") :
    lookupKey (addSymbolIfAbsent mint sym symbols) k = some s := by
  unfold addSymbolIfAbsent
  split
  · exact hs
  · next hguard =>
    by_cases h : mint = k
    · subst h
      rw [hs] at hguard
      simp [jsTruthyStr] at hguard
      exact absurd hguard hne
    · rw [lookupKey_setEntry_ne _ _ _ _ h]
      exact hs

/-- C1 counterexample: the claim that getRealOrderBook truncates each
side to the requested depth fails at depth 1 - with a decoder whose
getL2 view honestly truncates to its argument and holds two bid levels,
the call with depth 1 still returns two bid levels, because the source
requests getL2(20) regardless of the depth parameter. -/
theorem C1_depth_counterexample :
    ¬ ((getRealOrderBook
        { bidsL2 := fun n => List.take n [((2 : Rat), (1 : Rat)), (1, 1)]
          asksL2 := fun n => List.take n [] } 1).bids.length ≤ 1) := by
  decide

/-- C1 amended: whenever the external getL2 capability truncates its
output to its own argument (the SDK contract), both sides returned by
getRealOrderBook have at most 20 levels, for every requested depth -
the depth parameter is ignored and the literal 20 is the only bound. -/
theorem C1_truncation_amended (env : OrderBookEnv) (depth : Nat)
    (hb : ∀ n, (env.bidsL2 n).length ≤ n) (ha : ∀ n, (env.asksL2 n).length ≤ n) :
    (getRealOrderBook env depth).bids.length ≤ 20 ∧
    (getRealOrderBook env depth).asks.length ≤ 20 := by
  constructor
  · simpa [getRealOrderBook] using hb 20
  · simpa [getRealOrderBook] using ha 20

/-- C1 witness: the amended bound evaluated at a concrete truncating
decoder and the requested depth 1. -/
theorem C1_truncation_witness :
    (getRealOrderBook
        { bidsL2 := fun n => List.take n [((2 : Rat), (1 : Rat)), (1, 1)]
          asksL2 := fun n => List.take n [] } 1).bids.length ≤ 20 ∧
    (getRealOrderBook
        { bidsL2 := fun n => List.take n [((2 : Rat), (1 : Rat)), (1, 1)]
          asksL2 := fun n => List.take n [] } 1).asks.length ≤ 20 :=
  C1_truncation_amended _ 1
    (fun n => by rw [List.length_take]; exact Nat.min_le_left n 2)
    (fun n => by simp)

/-- C2 counterexample: the claim that the returned sides are sorted for
every decoder output, including unsorted ones, fails - with a decoder
emitting bids in ascending and asks in descending order, the returned
bids are not non-increasing and the returned asks are not
non-decreasing, because the source emits the decoder pairs in the order
received without sorting. -/
theorem C2_ordering_counterexample :
    nonIncreasing ((getRealOrderBook
        { bidsL2 := fun _ => [((1 : Rat), (1 : Rat)), (2, 1)]
          asksL2 := fun _ => [((2 : Rat), (1 : Rat)), (1, 1)] } 20).bids.map
      (fun l => l.price)) = false ∧
    nonDecreasing ((getRealOrderBook
        { bidsL2 := fun _ => [((1 : Rat), (1 : Rat)), (2, 1)]
          asksL2 := fun _ => [((2 : Rat), (1 : Rat)), (1, 1)] } 20).asks.map
      (fun l => l.price)) = false := by
  decide

/-- C2 amended: getRealOrderBook emits exactly the decoder's (price,
size) pairs in the decoder's order on each side; consequently the
returned bids are in non-increasing price order and the returned asks
in non-decreasing price order precisely when the decoder's getL2 output
already is (which the serum SDK getL2 guarantees), not for arbitrary
unsorted decoder output. -/
theorem C2_ordering_amended (env : OrderBookEnv) (depth : Nat) :
    ((getRealOrderBook env depth).bids.map (fun l => (l.price, l.size)) = env.bidsL2 20 ∧
     (getRealOrderBook env depth).asks.map (fun l => (l.price, l.size)) = env.asksL2 20) ∧
    (nonIncreasing ((env.bidsL2 20).map (fun p => p.1)) = true →
      nonIncreasing ((getRealOrderBook env depth).bids.map (fun l => l.price)) = true) ∧
    (nonDecreasing ((env.asksL2 20).map (fun p => p.1)) = true →
      nonDecreasing ((getRealOrderBook env depth).asks.map (fun l => l.price)) = true) := by
  refine ⟨⟨?_, ?_⟩, ?_, ?_⟩
  · simp only [getRealOrderBook, List.map_map]
    exact List.map_id _
  · simp only [getRealOrderBook, List.map_map]
    exact List.map_id _
  · intro h
    simpa [getRealOrderBook, List.map_map] using h
  · intro h
    simpa [getRealOrderBook, List.map_map] using h

/-- C2 witness: the amended ordering statement evaluated at a decoder
emitting bids descending and asks ascending. -/
theorem C2_ordering_witness :
    nonIncreasing ((getRealOrderBook
        { bidsL2 := fun _ => [((2 : Rat), (1 : Rat)), (1, 1)]
          asksL2 := fun _ => [((1 : Rat), (1 : Rat)), (2, 1)] } 20).bids.map
      (fun l => l.price)) = true ∧
    nonDecreasing ((getRealOrderBook
        { bidsL2 := fun _ => [((2 : Rat), (1 : Rat)), (1, 1)]
          asksL2 := fun _ => [((1 : Rat), (1 : Rat)), (2, 1)] } 20).asks.map
      (fun l => l.price)) = true :=
  ⟨(C2_ordering_amended
      { bidsL2 := fun _ => [((2 : Rat), (1 : Rat)), (1, 1)]
        asksL2 := fun _ => [((1 : Rat), (1 : Rat)), (2, 1)] } 20).2.1 (by decide),
   (C2_ordering_amended
      { bidsL2 := fun _ => [((2 : Rat), (1 : Rat)), (1, 1)]
        asksL2 := fun _ => [((1 : Rat), (1 : Rat)), (2, 1)] } 20).2.2 (by decide)⟩

/-- C3: getTokenMetadata is total and lands on the universal fallback
(first 8 characters of the identifier, decimals 6, name Unknown Token)
both for a malformed identifier (PublicKey validation fails) and for
every failing network outcome on the fetch path (network error, absent
account, undecodable mint data) reached after a falsy cache read. The
catch handler makes the function return a TokenMetadata on every input
by construction. -/
theorem C3_resolver_totality (env : TokenEnv) (symbols : SymbolMap) (a : String) :
    (env.validKey a = false →
      getTokenMetadata env symbols a
        = { symbol := a.take 8, name := "Unknown Token", decimals := 6 }) ∧
    (env.validKey a = true → jsTruthyStr (lookupKey symbols a) = false →
      (env.fetchMint a = .netError ∨ env.fetchMint a = .notFound ∨
        env.fetchMint a = .notMint) →
      getTokenMetadata env symbols a
        = { symbol := a.take 8, name := "Unknown Token", decimals := 6 }) := by
  constructor
  · intro h
    simp [getTokenMetadata, getTokenMetadataBody, h]
  · intro hv ht hf
    cases hl : lookupKey symbols a with
    | none =>
      rcases hf with h | h | h <;>
        simp [getTokenMetadata, getTokenMetadataBody, hv, hl, fetchMintBranch, h]
    | some s =>
      have hs : s = "" := by
        rw [hl] at ht
        simpa [jsTruthyStr] using ht
      subst hs
      rcases hf with h | h | h <;>
        simp [getTokenMetadata, getTokenMetadataBody, hv, hl, fetchMintBranch, h]

/-- C3 witness: the fallback evaluated at a malformed identifier and at
a well-formed identifier whose mint fetch fails on the network. -/
theorem C3_resolver_witness :
    getTokenMetadata { validKey := fun _ => false, fetchMint := fun _ => .netError } []
        "BadAddress" = { symbol := "BadAddress".take 8, name := "Unknown Token", decimals := 6 } ∧
    getTokenMetadata { validKey := fun _ => true, fetchMint := fun _ => .netError } []
        "SomeMint1234" = { symbol := "SomeMint1234".take 8, name := "Unknown Token", decimals := 6 } :=
  ⟨(C3_resolver_totality { validKey := fun _ => false, fetchMint := fun _ => .netError }
      [] "BadAddress").1 rfl,
   (C3_resolver_totality { validKey := fun _ => true, fetchMint := fun _ => .netError }
      [] "SomeMint1234").2 rfl rfl (Or.inl rfl)⟩

/-- C4 counterexample: the claim fails as universally stated over
identifiers present in the symbol mapping - a malformed identifier with
a cached symbol is routed by the PublicKey validation (which runs before
the cache read) to the fallback, not to the cached symbol; and an
identifier cached with the empty string is falsy under the truthiness
test, so the mint-account network lookup is issued after all. -/
theorem C4_cache_counterexample :
    (getTokenMetadata { validKey := fun _ => false, fetchMint := fun _ => .netError }
        [("bad?key!", "USDC")] "bad?key!").symbol ≠ "USDC" ∧
    mintLookupIssued { validKey := fun _ => true, fetchMint := fun _ => .mint 9 }
        [("mintX", "")] "mintX" = true := by
  constructor
  · decide
  · rfl

/-- C4 amended: for every well-formed identifier (PublicKey validation
passes) whose cached symbol is a non-empty string, getTokenMetadata
returns the cached symbol as both symbol and name with decimals 6, and
the mint-account network lookup is not issued. -/
theorem C4_cache_amended (env : TokenEnv) (symbols : SymbolMap) (a s : String)
    (hv : env.validKey a = true) (hs : lookupKey symbols a = some s) (hne : s ≠ "") :
    getTokenMetadata env symbols a = { symbol := s, name := s, decimals := 6 } ∧
    mintLookupIssued env symbols a = false := by
  constructor
  · simp [getTokenMetadata, getTokenMetadataBody, hv, hs, hne]
  · simp [mintLookupIssued, hv, hs, jsTruthyStr, hne]

/-- C4 witness: the cached-symbol path evaluated at a concrete valid
identifier cached as USDC. -/
theorem C4_cache_witness :
    getTokenMetadata { validKey := fun _ => true, fetchMint := fun _ => .netError }
        [("EPjFWdd5AufqSSqeM2qN1xzybapC8G4wEGGkZwyTDt1v", "USDC")]
        "EPjFWdd5AufqSSqeM2qN1xzybapC8G4wEGGkZwyTDt1v"
      = { symbol := "USDC", name := "USDC", decimals := 6 } ∧
    mintLookupIssued { validKey := fun _ => true, fetchMint := fun _ => .netError }
        [("EPjFWdd5AufqSSqeM2qN1xzybapC8G4wEGGkZwyTDt1v", "USDC")]
        "EPjFWdd5AufqSSqeM2qN1xzybapC8G4wEGGkZwyTDt1v" = false :=
  C4_cache_amended { validKey := fun _ => true, fetchMint := fun _ => .netError }
    [("EPjFWdd5AufqSSqeM2qN1xzybapC8G4wEGGkZwyTDt1v", "USDC")]
    "EPjFWdd5AufqSSqeM2qN1xzybapC8G4wEGGkZwyTDt1v" "USDC" rfl rfl (by decide)

/-- C5: main's identity detection decides by exact string equality of
the fetched account's owner against the two fixed program identifiers -
an OpenBook owner selects the OpenBook identity, a Serum owner the
Serum identity, any other owner aborts the invocation as an invalid
market, and a non-existent account aborts through the distinct
not-found branch, which differs from the invalid-market abort. -/
theorem C5_identity_exactness (flag : Bool) (owner : String) :
    (owner = OPENBOOK_PROGRAM_ID →
      detectProgram flag (.ok (some { owner := owner })) = .proceed false) ∧
    (owner = SERUM_PROGRAM_ID →
      detectProgram flag (.ok (some { owner := owner })) = .proceed true) ∧
    (owner ≠ OPENBOOK_PROGRAM_ID → owner ≠ SERUM_PROGRAM_ID →
      detectProgram flag (.ok (some { owner := owner })) = .abortInvalidMarket) ∧
    detectProgram flag (.ok none) = .abortNotFound ∧
    DetectOutcome.abortNotFound ≠ DetectOutcome.abortInvalidMarket := by
  refine ⟨?_, ?_, ?_, rfl, by decide⟩
  · rintro rfl
    simp [detectProgram, OPENBOOK_PROGRAM_ID, SERUM_PROGRAM_ID]
  · rintro rfl
    simp [detectProgram, OPENBOOK_PROGRAM_ID, SERUM_PROGRAM_ID]
  · intro h1 h2
    simp only [detectProgram]
    rw [if_neg h2, if_neg h1]

/-- C5 witness: the three synthetic owners of the spec's P4 test
(OpenBook id, Serum id, arbitrary id) and a missing account, evaluated
through the detection block. -/
theorem C5_identity_witness :
    detectProgram false (.ok (some { owner := OPENBOOK_PROGRAM_ID })) = .proceed false ∧
    detectProgram false (.ok (some { owner := SERUM_PROGRAM_ID })) = .proceed true ∧
    detectProgram false (.ok (some { owner := "ArbitraryOwner11111" })) = .abortInvalidMarket ∧
    detectProgram false (.ok none) = .abortNotFound :=
  ⟨(C5_identity_exactness false OPENBOOK_PROGRAM_ID).1 rfl,
   (C5_identity_exactness false SERUM_PROGRAM_ID).2.1 rfl,
   (C5_identity_exactness false "ArbitraryOwner11111").2.2.1 (by decide) (by decide),
   (C5_identity_exactness false "x").2.2.2.1⟩

/-- C6 counterexample: the claim that the forced-identity flag bypasses
detection fails - invoking with a market address and the serum flag,
when the fetched account is owned by the OpenBook program, main's
detection block overrides the flag and the selected identity is the
OpenBook one (useSerum false), not the forced Serum one. -/
theorem C6_force_counterexample :
    useSerumFlagOf ["Cw35vJ7ecmnwc2jPumgfhDzUuJ1fmrytuRopBF5JUXrq", "--serum"] = true ∧
    selectProgramOutcome ["Cw35vJ7ecmnwc2jPumgfhDzUuJ1fmrytuRopBF5JUXrq", "--serum"]
        (.ok (some { owner := OPENBOOK_PROGRAM_ID })) = .proceed false ∧
    DetectOutcome.proceed false ≠ DetectOutcome.proceed true := by
  refine ⟨rfl, ?_, by decide⟩
  decide

/-- C6 amended: the forced-identity flag only initializes the selected
identity and serves as the value kept when the detection fetch errors
out; when the detection guard holds and the account exists owned by one
of the two programs, the owner decides the identity and can override
the flag (an OpenBook owner selects the OpenBook identity even under
the serum flag). -/
theorem C6_force_amended (args : List String) (owner : String)
    (hf : useSerumFlagOf args = true) (hd : autoDetectApplies args = true) :
    selectProgramOutcome args .netError = .proceed true ∧
    (owner = OPENBOOK_PROGRAM_ID →
      selectProgramOutcome args (.ok (some { owner := owner })) = .proceed false) ∧
    (owner = SERUM_PROGRAM_ID →
      selectProgramOutcome args (.ok (some { owner := owner })) = .proceed true) := by
  refine ⟨?_, ?_, ?_⟩
  · simp [selectProgramOutcome, hd, hf, detectProgram]
  · rintro rfl
    simp [selectProgramOutcome, hd, detectProgram, OPENBOOK_PROGRAM_ID, SERUM_PROGRAM_ID]
  · rintro rfl
    simp [selectProgramOutcome, hd, detectProgram, OPENBOOK_PROGRAM_ID, SERUM_PROGRAM_ID]

/-- C6 witness: the amended statement evaluated at the concrete
invocation with a market address and the serum flag, for both program
owners and for a failing detection fetch. -/
theorem C6_force_witness :
    selectProgramOutcome ["Cw35vJ7ecmnwc2jPumgfhDzUuJ1fmrytuRopBF5JUXrq", "--serum"]
        .netError = .proceed true ∧
    selectProgramOutcome ["Cw35vJ7ecmnwc2jPumgfhDzUuJ1fmrytuRopBF5JUXrq", "--serum"]
        (.ok (some { owner := OPENBOOK_PROGRAM_ID })) = .proceed false ∧
    selectProgramOutcome ["Cw35vJ7ecmnwc2jPumgfhDzUuJ1fmrytuRopBF5JUXrq", "--serum"]
        (.ok (some { owner := SERUM_PROGRAM_ID })) = .proceed true :=
  ⟨(C6_force_amended ["Cw35vJ7ecmnwc2jPumgfhDzUuJ1fmrytuRopBF5JUXrq", "--serum"]
      OPENBOOK_PROGRAM_ID rfl rfl).1,
   (C6_force_amended ["Cw35vJ7ecmnwc2jPumgfhDzUuJ1fmrytuRopBF5JUXrq", "--serum"]
      OPENBOOK_PROGRAM_ID rfl rfl).2.1 rfl,
   (C6_force_amended ["Cw35vJ7ecmnwc2jPumgfhDzUuJ1fmrytuRopBF5JUXrq", "--serum"]
      SERUM_PROGRAM_ID rfl rfl).2.2 rfl⟩

/-- C7: when market loading fails in the add workflow, the exception
propagates before any mutation - the in-memory store is returned
unchanged, save is never called, and the persisted file content is
byte-identical, for every serialization. -/
theorem C7_no_partial_add (env : TokenEnv) (marketAddress : String) (e : LoadErr)
    (st : Store) (serialize : Store → String) (file : String) :
    mainAddWorkflow env marketAddress (.error e) st = (st, false) ∧
    fileAfterAdd serialize env marketAddress (.error e) st file = file := by
  constructor
  · rfl
  · rfl

/-- C8 counterexample: the claim that an existing symbol entry is never
overwritten fails for an entry holding the empty string - the source's
truthiness guard treats it as absent, so adding a market whose base
mint carries that identifier overwrites the empty entry with the
resolved symbol. -/
theorem C8_symbol_counterexample :
    (addMarketToKnownMarkets { validKey := fun _ => true, fetchMint := fun _ => .netError }
        "Mkt1" (.ok { baseMintAddress := "mintAAAAX", quoteMintAddress := "mintBBBBY" })
        { markets := [], symbols := [("mintAAAAX", "")] }).toOption.map
      (fun st1 => lookupKey st1.symbols "mintAAAAX") = some (some "mintAAAA") ∧
    some "mintAAAA" ≠ some "" := by
  constructor
  · decide
  · decide

/-- C8 amended: the symbol mapping is first-writer-wins for every
non-empty entry - any identifier whose current entry is a non-empty
string keeps that entry unchanged through an add-market operation; only
an absent or empty-string entry (falsy under the source's truthiness
guard) is written. -/
theorem C8_symbol_first_writer (env : TokenEnv) (marketAddress : String) (m : LoadedMarket)
    (st : Store) (k s : String)
    (hs : lookupKey st.symbols k = some s) (hne : s ≠ "") :
    (addMarketToKnownMarkets env marketAddress (.ok m) st).toOption.map
      (fun st1 => lookupKey st1.symbols k) = some (some s) := by
  have h1 := lookupKey_addSymbolIfAbsent m.baseMintAddress
    (getTokenMetadata env st.symbols m.baseMintAddress).symbol k s st.symbols hs hne
  have h2 := lookupKey_addSymbolIfAbsent m.quoteMintAddress
    (getTokenMetadata env st.symbols m.quoteMintAddress).symbol k s _ h1 hne
  simp only [addMarketToKnownMarkets, Except.toOption, Option.map]
  simpa using h2

/-- C8 witness: a concrete store whose entry for the base mint is the
non-empty symbol SYMX; the add-market operation leaves it as SYMX. -/
theorem C8_symbol_witness :
    (addMarketToKnownMarkets { validKey := fun _ => true, fetchMint := fun _ => .netError }
        "Mkt1" (.ok { baseMintAddress := "mintAAAAX", quoteMintAddress := "mintBBBBY" })
        { markets := [], symbols := [("mintAAAAX", "SYMX")] }).toOption.map
      (fun st1 => lookupKey st1.symbols "mintAAAAX") = some (some "SYMX") :=
  C8_symbol_first_writer { validKey := fun _ => true, fetchMint := fun _ => .netError }
    "Mkt1" { baseMintAddress := "mintAAAAX", quoteMintAddress := "mintBBBBY" }
    { markets := [], symbols := [("mintAAAAX", "SYMX")] } "mintAAAAX" "SYMX"
    rfl (by decide)

/-- C9: the store load operation is total over the persisted-state
conditions - a missing file and a corrupt (unparseable) file both
initialize the two mappings to empty and return normally; the catch
handler makes the operation return a Store on every input by
construction, never propagating the failure. -/
theorem C9_load_total :
    loadKnownMarketsFromFile .missing = { markets := [], symbols := [] } ∧
    loadKnownMarketsFromFile .corrupt = { markets := [], symbols := [] } :=
  ⟨rfl, rfl⟩

/-- C10: the spread statistics treat zero prices and zero spreads as
absent values through the JS truthiness guards - with both sides
non-empty and a best bid of 0, spread and spreadPercentage are both
null; with equal non-zero best prices the spread is 0 and the
percentage is null; and with strictly positive best prices, ask above
bid, the spread is the difference and the percentage is spread over
best bid times 100. -/
theorem C10_stats_guards (env : OrderBookEnv) :
    ((getMarketStats env).totalBids ≠ 0 → (getMarketStats env).totalAsks ≠ 0 →
      (getMarketStats env).bestBid = some 0 →
      (getMarketStats env).spread = none ∧ (getMarketStats env).spreadPercentage = none) ∧
    (∀ b : Rat, (getMarketStats env).bestBid = some b → (getMarketStats env).bestAsk = some b →
      b ≠ 0 →
      (getMarketStats env).spread = some 0 ∧ (getMarketStats env).spreadPercentage = none) ∧
    (∀ b a : Rat, (getMarketStats env).bestBid = some b → (getMarketStats env).bestAsk = some a →
      0 < b → 0 < a → b < a →
      (getMarketStats env).spread = some (a - b) ∧
      (getMarketStats env).spreadPercentage = some ((a - b) / b * 100)) := by
  refine ⟨?_, ?_, ?_⟩
  · intro _ _ h0
    have h0b : headPrice (getRealOrderBook env 1).bids = some 0 := h0
    have hz : jsTruthyNum (some (0 : Rat)) = false := by decide
    constructor
    · show spreadOf (headPrice (getRealOrderBook env 1).bids)
        (headPrice (getRealOrderBook env 1).asks) = none
      rw [h0b]
      simp [spreadOf, hz]
    · show spreadPercentageOf
        (spreadOf (headPrice (getRealOrderBook env 1).bids)
          (headPrice (getRealOrderBook env 1).asks))
        (headPrice (getRealOrderBook env 1).bids) = none
      rw [h0b]
      simp [spreadOf, spreadPercentageOf, hz]
  · intro b hb hask hbne
    have hb2 : headPrice (getRealOrderBook env 1).bids = some b := hb
    have ha2 : headPrice (getRealOrderBook env 1).asks = some b := hask
    have hz : jsTruthyNum (some (0 : Rat)) = false := by decide
    have hsp : spreadOf (some b) (some b) = some 0 := by
      simp [spreadOf, jsTruthyNum, hbne, sub_self]
    constructor
    · show spreadOf (headPrice (getRealOrderBook env 1).bids)
        (headPrice (getRealOrderBook env 1).asks) = some 0
      rw [hb2, ha2, hsp]
    · show spreadPercentageOf
        (spreadOf (headPrice (getRealOrderBook env 1).bids)
          (headPrice (getRealOrderBook env 1).asks))
        (headPrice (getRealOrderBook env 1).bids) = none
      rw [hb2, ha2, hsp]
      simp [spreadPercentageOf, hz]
  · intro b a hb hask hb0 ha0 hba
    have hb2 : headPrice (getRealOrderBook env 1).bids = some b := hb
    have ha2 : headPrice (getRealOrderBook env 1).asks = some a := hask
    have hsp : spreadOf (some b) (some a) = some (a - b) := by
      simp [spreadOf, jsTruthyNum, hb0.ne', ha0.ne']
    have hdne : a - b ≠ 0 := sub_ne_zero.mpr hba.ne'
    constructor
    · show spreadOf (headPrice (getRealOrderBook env 1).bids)
        (headPrice (getRealOrderBook env 1).asks) = some (a - b)
      rw [hb2, ha2, hsp]
    · show spreadPercentageOf
        (spreadOf (headPrice (getRealOrderBook env 1).bids)
          (headPrice (getRealOrderBook env 1).asks))
        (headPrice (getRealOrderBook env 1).bids) = some ((a - b) / b * 100)
      rw [hb2, ha2, hsp]
      simp [spreadPercentageOf, jsTruthyNum, hdne, hb0.ne']

/-- C10 witness: the guards evaluated at concrete books - a zero best
bid with both sides populated, equal best prices, and the positive case
with best bid 3 and best ask 4. -/
theorem C10_stats_witness :
    (getMarketStats { bidsL2 := fun _ => [((0 : Rat), (5 : Rat))]
                      asksL2 := fun _ => [((2 : Rat), (3 : Rat))] }).spread = none ∧
    (getMarketStats { bidsL2 := fun _ => [((0 : Rat), (5 : Rat))]
                      asksL2 := fun _ => [((2 : Rat), (3 : Rat))] }).spreadPercentage = none ∧
    (getMarketStats { bidsL2 := fun _ => [((3 : Rat), (1 : Rat))]
                      asksL2 := fun _ => [((3 : Rat), (2 : Rat))] }).spread = some 0 ∧
    (getMarketStats { bidsL2 := fun _ => [((3 : Rat), (1 : Rat))]
                      asksL2 := fun _ => [((3 : Rat), (2 : Rat))] }).spreadPercentage = none ∧
    (getMarketStats { bidsL2 := fun _ => [((3 : Rat), (50 : Rat))]
                      asksL2 := fun _ => [((4 : Rat), (40 : Rat))] }).spread
      = some ((4 : Rat) - 3) ∧
    (getMarketStats { bidsL2 := fun _ => [((3 : Rat), (50 : Rat))]
                      asksL2 := fun _ => [((4 : Rat), (40 : Rat))] }).spreadPercentage
      = some (((4 : Rat) - 3) / 3 * 100) := by
  have h1 := (C10_stats_guards
    { bidsL2 := fun _ => [((0 : Rat), (5 : Rat))], asksL2 := fun _ => [((2 : Rat), (3 : Rat))] }).1
    (by decide) (by decide) (by decide)
  have h2 := (C10_stats_guards
    { bidsL2 := fun _ => [((3 : Rat), (1 : Rat))], asksL2 := fun _ => [((3 : Rat), (2 : Rat))] }).2.1
    3 (by decide) (by decide) (by decide)
  have h3 := (C10_stats_guards
    { bidsL2 := fun _ => [((3 : Rat), (50 : Rat))], asksL2 := fun _ => [((4 : Rat), (40 : Rat))] }).2.2
    3 4 (by decide) (by decide) (by decide) (by decide) (by decide)
  exact ⟨h1.1, h1.2, h2.1, h2.2, h3.1, h3.2⟩
